import Mathlib

/-!
Verification of the al-forqan audio acquisition and normalization pipeline.

Shallow embedding of the duration bookkeeping, validation, rate limiting and
coordination logic of:
  - alforqan/backend/quran_data/audio_processor.py
  - alforqan/backend/quran_data/quran_data_manager.py
  - alforqan/backend/utils/every_ayah_downloader.py

Audio files are represented by their integer length in milliseconds (pydub
reports len(AudioSegment) in ms); wall-clock times and loudness are rationals.
-/

namespace AlForqan

/-! ## AudioProcessor.merge_audio_files (audio_processor.py lines 150-219)

The merge loop is modelled on the list of clip lengths in milliseconds.
pydub semantics used by the code: an AudioSegment has a nonnegative length;
`merged.append(current, crossfade)` raises ValueError when the crossfade
exceeds the length of either operand, and otherwise yields a segment of
length len(merged) + len(current) - crossfade. -/

/-- One entry of the duration_changes list built at lines 194-202
(the source_file string field is dropped; a clip is its length). -/
structure DurationChange where
  original_duration_ms : ℕ
  effective_duration_ms : ℤ
  difference_ms : ℤ
deriving Repr, DecidableEq

/-- The dictionary returned at lines 211-219, restricted to its duration
bookkeeping fields. merged_len_ms is the length of the exported segment. -/
structure MergeResult where
  duration_changes : List DurationChange
  calculated_duration_ms : ℤ
  total_crossfade_duration_ms : ℕ
  merged_len_ms : ℕ
deriving Repr, DecidableEq

/-- The loop at lines 179-205. State threaded exactly as in the code:
mergedLen is len(merged), total is total_duration_ms, cumcf is
cumulative_crossfade. Records are produced in input order. -/
def mergeLoop (crossfade : ℕ) (mergedLen : ℕ) (total : ℤ) (cumcf : ℕ) :
    List ℕ → Except String MergeResult
  | [] => .ok ⟨[], total, cumcf, mergedLen⟩
  | d :: rest =>
    if 0 < mergedLen then
      -- lines 183-187: accumulator non-empty, the clip is charged the crossfade
      let effective : ℤ := (d : ℤ) - crossfade
      -- pydub AudioSegment.append raises if the crossfade exceeds either segment
      if crossfade > mergedLen ∨ crossfade > d then
        .error "Crossfade is longer than the original AudioSegment"
      else
        match mergeLoop crossfade (mergedLen + d - crossfade) (total + effective)
            (cumcf + crossfade) rest with
        | .error e => .error e
        | .ok res =>
          .ok { res with
                duration_changes :=
                  ⟨d, effective, effective - d⟩ :: res.duration_changes }
    else
      -- lines 188-190: first contributing clip, full length, no crossfade
      match mergeLoop crossfade d (total + d) cumcf rest with
      | .error e => .error e
      | .ok res =>
        .ok { res with
              duration_changes := ⟨d, (d : ℤ), (d : ℤ) - d⟩ :: res.duration_changes }

/-- AudioProcessor.merge_audio_files, lines 150-219 (duration bookkeeping;
paths and the final on-disk re-measurement are I/O and are not modelled). -/
def merge_audio_files (durations : List ℕ) (crossfade : ℕ) : Except String MergeResult :=
  if durations.isEmpty then .error "No input files provided"
  else mergeLoop crossfade 0 0 0 durations

/-- Refinement reference written from the words of the claim, not the code:
the first clip keeps its full duration, every subsequent clip is charged the
crossfade. -/
def specEffectiveDurations (durations : List ℕ) (crossfade : ℕ) : List ℤ :=
  match durations with
  | [] => []
  | d :: rest => (d : ℤ) :: rest.map (fun x => (x : ℤ) - crossfade)

/-- Helper: key invariant of the loop once the accumulator is non-empty,
every remaining clip is charged the crossfade. -/
theorem mergeLoop_records_of_pos (crossfade : ℕ) :
    ∀ (rest : List ℕ) (m : ℕ) (t : ℤ) (c : ℕ) (res : MergeResult),
      0 < m → mergeLoop crossfade m t c rest = .ok res →
      res.duration_changes.map (fun r => r.original_duration_ms) = rest ∧
      res.duration_changes.map (fun r => r.effective_duration_ms)
        = rest.map (fun x => (x : ℤ) - crossfade)
  | [], m, t, c, res, _hm, hok => by
      simp only [mergeLoop] at hok
      cases hok
      simp
  | d :: rest, m, t, c, res, hm, hok => by
      simp only [mergeLoop, if_pos hm] at hok
      by_cases hcf : crossfade > m ∨ crossfade > d
      · rw [if_pos hcf] at hok
        cases hok
      · rw [if_neg hcf] at hok
        push_neg at hcf
        obtain ⟨h1, h2⟩ := hcf
        cases hrec : mergeLoop crossfade (m + d - crossfade) (t + ((d : ℤ) - crossfade))
            (c + crossfade) rest with
        | error e => rw [hrec] at hok; cases hok
        | ok res' =>
            rw [hrec] at hok
            cases hok
            have hm' : 0 < m + d - crossfade := by omega
            have ih := mergeLoop_records_of_pos crossfade rest (m + d - crossfade)
              (t + ((d : ℤ) - crossfade)) (c + crossfade) res' hm' hrec
            simp [ih.1, ih.2]

/-- Helper: a zero-length clip leaves the accumulator empty, so it only
contributes a zero record and does not change the loop state. -/
theorem mergeLoop_zero_clip (crossfade : ℕ) (t : ℤ) (c : ℕ) (l : List ℕ) :
    mergeLoop crossfade 0 t c (0 :: l)
      = (mergeLoop crossfade 0 t c l).map
          (fun res =>
            { res with duration_changes := ⟨0, 0, 0⟩ :: res.duration_changes }) := by
  simp only [mergeLoop, lt_irrefl, if_false, Nat.cast_zero, add_zero, sub_zero]
  cases h : mergeLoop crossfade 0 t c l <;> simp [h, Except.map]

/-- C1 counterexample: merging clips of lengths [0ms, 4000ms] with a 500ms
crossfade gives the second clip an effective duration of its full 4000ms,
not 4000 - 500 as the claim requires of every subsequent clip. -/
theorem merge_effective_durations_counterexample :
    (merge_audio_files [0, 4000] 500).map
        (fun r => r.duration_changes.map (fun x => x.effective_duration_ms))
      = .ok [0, 4000] ∧ ((4000 : ℤ) ≠ 4000 - 500) := by
  exact ⟨rfl, by decide⟩

/-- C1 (amended): provided the first clip has positive length, a successful
merge produces one record per clip in input order whose effective duration is
the full length for the first clip and length minus crossfade for every
subsequent clip; in particular [5000, 4000, 6000] with crossfade 500 yields
effective durations [5000, 3500, 5500] with calculated total 14000. -/
theorem merge_effective_durations (d : ℕ) (rest : List ℕ) (crossfade : ℕ)
    (res : MergeResult) (hd : 0 < d)
    (hok : merge_audio_files (d :: rest) crossfade = .ok res) :
    res.duration_changes.map (fun r => r.original_duration_ms) = d :: rest ∧
    res.duration_changes.map (fun r => r.effective_duration_ms)
      = specEffectiveDurations (d :: rest) crossfade ∧
    (merge_audio_files [5000, 4000, 6000] 500).map
        (fun r => (r.duration_changes.map (fun x => x.effective_duration_ms),
                   r.calculated_duration_ms))
      = .ok ([5000, 3500, 5500], 14000) := by
  refine ?_
  simp only [merge_audio_files, List.isEmpty_cons, Bool.false_eq_true, if_false] at hok
  rw [mergeLoop, if_neg (by omega : ¬ 0 < 0)] at hok
  cases hrec : mergeLoop crossfade d ((0 : ℤ) + d) 0 rest with
  | error e => rw [hrec] at hok; cases hok
  | ok res' =>
      rw [hrec] at hok
      cases hok
      have h := mergeLoop_records_of_pos crossfade rest d ((0 : ℤ) + d) 0 res' hd hrec
      refine ⟨?_, ?_, rfl⟩
      · simp [h.1]
      · simp [h.2, specEffectiveDurations]

/-- C1 witness: the amended theorem applied at the concrete run of the spec
example, recovering the effective duration list [5000, 3500, 5500]. -/
theorem merge_effective_durations_witness :
    (MergeResult.mk
        [⟨5000, 5000, 0⟩, ⟨4000, 3500, -500⟩, ⟨6000, 5500, -500⟩]
        14000 1000 14000).duration_changes.map (fun r => r.effective_duration_ms)
      = specEffectiveDurations [5000, 4000, 6000] 500 :=
  (merge_effective_durations 5000 [4000, 6000] 500 _ (by decide) rfl).2.1

/-- C10: whether a clip is charged the crossfade depends on the accumulated
merged audio being non-empty, not on the clip's index: after a zero-length
first clip, the rest of the merge behaves exactly as if it started the list,
so the second clip keeps its full duration and consumes no crossfade. -/
theorem merge_zero_first_clip (d : ℕ) (rest : List ℕ) (crossfade : ℕ) :
    merge_audio_files (0 :: d :: rest) crossfade
      = (merge_audio_files (d :: rest) crossfade).map
          (fun res =>
            { res with duration_changes := ⟨0, 0, 0⟩ :: res.duration_changes }) ∧
    (merge_audio_files [0, 4000] 500).map
        (fun r => r.duration_changes.map (fun x => x.effective_duration_ms))
      = .ok [0, 4000] ∧
    (merge_audio_files [0, 4000] 500).map (fun r => r.total_crossfade_duration_ms)
      = .ok 0 := by
  refine ⟨?_, rfl, rfl⟩
  simp [merge_audio_files, mergeLoop_zero_clip]

/-! ## QuranDataManager validation and task scheduling
(quran_data_manager.py lines 59-99, 137-141) -/

/-- Modelled from the spec: MAX_SURAH comes from alforqan/constant.py, which
is not among the provided sources; the spec fixes surah numbering as 1..114
throughout (data model, glossary, ReciterDirectory contract). -/
def MAX_SURAH : ℕ := 114

/-- QuranDataManager._validate_verse_range (lines 89-99): the only checks are
the surah bound and start not exceeding end. -/
def validate_verse_range (surah_number start_ayah end_ayah : ℕ) : Except String Unit :=
  if ¬ (1 ≤ surah_number ∧ surah_number ≤ MAX_SURAH) then
    .error "Invalid surah number"
  else if start_ayah > end_ayah then
    .error "Start verse cannot be greater than end verse"
  else
    .ok ()

/-- Python range(start_ayah, end_ayah + 1) used at line 140. -/
def ayahRange (start_ayah end_ayah : ℕ) : List ℕ :=
  List.range' start_ayah (end_ayah + 1 - start_ayah)

/-- The per-ayah tasks submitted to the thread pool by get_verses_info
(lines 70-75 and 137-141): validation runs first and raises on failure, so
no task is submitted then; otherwise one task per ayah of the range. -/
def scheduledAyahs (surah_number start_ayah end_ayah : ℕ) : List ℕ :=
  match validate_verse_range surah_number start_ayah end_ayah with
  | .error _ => []
  | .ok _ => ayahRange start_ayah end_ayah

/-- Modelled from the spec: the known verse count of surah 1 is 7 (the
manifest ayahCount data is external; the spec end-to-end scenario requests
ayahs 1-7 of surah 1 as the full surah). -/
def surah1AyahCount : ℕ := 7

/-- C2 counterexample: the request (surah 1, ayahs 1..8) has end_ayah = 8
exceeding the known verse count 7 of surah 1, yet validation accepts it and
all eight per-ayah tasks are scheduled: the code does not fail fast on this
invalid input. -/
theorem validate_verse_range_counterexample :
    validate_verse_range 1 1 8 = .ok () ∧
    scheduledAyahs 1 1 8 = [1, 2, 3, 4, 5, 6, 7, 8] ∧
    surah1AyahCount < 8 := by
  exact ⟨rfl, rfl, by decide⟩

/-- C2 (amended): the up-front validation accepts exactly the requests with
surah in 1..114 and start_ayah at most end_ayah — it never consults verse
counts — and tasks are scheduled for the full requested range exactly when
validation accepts, with no task scheduled when it fails. -/
theorem validate_verse_range_spec (surah_number start_ayah end_ayah : ℕ) :
    (validate_verse_range surah_number start_ayah end_ayah = .ok () ↔
      1 ≤ surah_number ∧ surah_number ≤ MAX_SURAH ∧ start_ayah ≤ end_ayah) ∧
    (validate_verse_range surah_number start_ayah end_ayah ≠ .ok () →
      scheduledAyahs surah_number start_ayah end_ayah = []) ∧
    (validate_verse_range surah_number start_ayah end_ayah = .ok () →
      scheduledAyahs surah_number start_ayah end_ayah
        = ayahRange start_ayah end_ayah) := by
  refine ⟨?_, ?_, ?_⟩
  · unfold validate_verse_range
    split_ifs with h1 h2 <;> simp_all
  · intro h
    unfold scheduledAyahs
    cases hv : validate_verse_range surah_number start_ayah end_ayah with
    | error e => rfl
    | ok u => cases u; exact absurd hv h
  · intro h
    unfold scheduledAyahs
    rw [h]

/-- C2 witness: an invalid surah number (115) fails validation and schedules
no tasks. -/
theorem validate_verse_range_spec_witness :
    scheduledAyahs 115 1 3 = [] :=
  (validate_verse_range_spec 115 1 3).2.1 (fun h => Except.noConfusion h)

/-! ## QuranAudioDownloader._validate_surah_ayah
(every_ayah_downloader.py lines 174-189) -/

/-- The validation at lines 174-189: the surah bound is checked first, then
the ayah is checked against the per-surah count ayah_counts[surah-1] taken
from the remote manifest data. An out-of-range index on a short counts list
is a raised IndexError in Python, modelled as a distinct error. -/
def validate_surah_ayah (ayahCounts : List ℕ) (surah_num ayah_num : ℕ) :
    Except String Unit :=
  if ¬ (1 ≤ surah_num ∧ surah_num ≤ 114) then
    .error "Surah number must be between 1 and 114"
  else if h : surah_num - 1 < ayahCounts.length then
    let max_ayah := ayahCounts[surah_num - 1]
    if ¬ (1 ≤ ayah_num ∧ ayah_num ≤ max_ayah) then
      .error "Ayah number must be between 1 and max_ayah for surah"
    else
      .ok ()
  else
    .error "IndexError"

/-- C6: with a full 114-entry counts table, validation accepts every pair
with surah in 1..114 and ayah in 1..max_ayah[surah], and rejects surah 0,
surah 115, and any ayah above the surah count. -/
theorem validate_surah_ayah_spec (ayahCounts : List ℕ)
    (hlen : ayahCounts.length = 114) :
    (∀ surah_num ayah_num : ℕ,
      1 ≤ surah_num → surah_num ≤ 114 →
      1 ≤ ayah_num → ayah_num ≤ ayahCounts.getD (surah_num - 1) 0 →
      validate_surah_ayah ayahCounts surah_num ayah_num = .ok ()) ∧
    (∀ ayah_num : ℕ,
      validate_surah_ayah ayahCounts 0 ayah_num
        = .error "Surah number must be between 1 and 114") ∧
    (∀ ayah_num : ℕ,
      validate_surah_ayah ayahCounts 115 ayah_num
        = .error "Surah number must be between 1 and 114") ∧
    (∀ surah_num ayah_num : ℕ,
      1 ≤ surah_num → surah_num ≤ 114 →
      ayahCounts.getD (surah_num - 1) 0 < ayah_num →
      validate_surah_ayah ayahCounts surah_num ayah_num
        = .error "Ayah number must be between 1 and max_ayah for surah") := by
  have hidx : ∀ s : ℕ, (hlt : s - 1 < ayahCounts.length) →
      ayahCounts[s - 1] = ayahCounts.getD (s - 1) 0 := by
    intro s hlt
    rw [List.getD_eq_getElem _ _ hlt]
  refine ⟨?_, ?_, ?_, ?_⟩
  · intro s a h1 h2 h3 h4
    have hlt : s - 1 < ayahCounts.length := by omega
    unfold validate_surah_ayah
    rw [if_neg (by omega), dif_pos hlt]
    rw [if_neg (by rw [hidx s hlt]; omega)]
  · intro a
    unfold validate_surah_ayah
    rw [if_pos (by omega)]
  · intro a
    unfold validate_surah_ayah
    rw [if_pos (by omega)]
  · intro s a h1 h2 h4
    have hlt : s - 1 < ayahCounts.length := by omega
    unfold validate_surah_ayah
    rw [if_neg (by omega), dif_pos hlt]
    rw [if_pos (by rw [hidx s hlt]; omega)]

/-- C6 witness: with every surah given 7 ayahs, the pair (1, 7) is accepted. -/
theorem validate_surah_ayah_spec_witness :
    validate_surah_ayah (List.replicate 114 7) 1 7 = .ok () :=
  (validate_surah_ayah_spec (List.replicate 114 7) (by decide)).1 1 7
    (by decide) (by decide) (by decide) (by decide)

/-! ## AudioProcessor constructor validation (audio_processor.py lines 69-99) -/

/-- The four parameter checks of AudioProcessor.__init__ in source order.
Python compares fade_len to min_silence_duration / 4 with true division, so
that comparison is taken over the rationals. -/
def audio_processor_init
    (silence_thresh min_silence_duration fade_len padding_len : ℤ) :
    Except String Unit :=
  if ¬ (-100 ≤ silence_thresh ∧ silence_thresh ≤ 0) then
    .error "Invalid silence threshold"
  else if min_silence_duration ≤ 0 then
    .error "Invalid silence duration"
  else if padding_len * 2 ≥ min_silence_duration then
    .error "Invalid padding length"
  else if (fade_len : ℚ) ≥ (min_silence_duration : ℚ) / 4 then
    .error "Invalid fade length"
  else
    .ok ()

/-- C7: construction succeeds exactly when the threshold lies in [-100, 0],
the minimum silence length is positive, twice the padding is below the
minimum silence length, and the fade is below a quarter of it; in particular
padding 200 with minimum 300 and fade 100 with minimum 300 both fail
(remaining parameters at their defaults). -/
theorem audio_processor_init_spec :
    (∀ silence_thresh min_silence_duration fade_len padding_len : ℤ,
      audio_processor_init silence_thresh min_silence_duration fade_len padding_len
          = .ok ()
        ↔ (-100 ≤ silence_thresh ∧ silence_thresh ≤ 0) ∧
          0 < min_silence_duration ∧
          padding_len * 2 < min_silence_duration ∧
          (fade_len : ℚ) < (min_silence_duration : ℚ) / 4) ∧
    audio_processor_init (-50) 300 15 200 = .error "Invalid padding length" ∧
    audio_processor_init (-50) 300 100 20 = .error "Invalid fade length" := by
  refine ⟨?_, ?_, ?_⟩
  · intro t m f p
    constructor
    · intro h
      unfold audio_processor_init at h
      split_ifs at h with h1 h2 h3 h4
      exact ⟨h1, by omega, by omega, not_le.mp h4⟩
    · rintro ⟨ha, hb, hc, hd⟩
      unfold audio_processor_init
      rw [if_neg (not_not.mpr ha), if_neg (by omega), if_neg (by omega),
        if_neg (not_le.mpr hd)]
  · unfold audio_processor_init
    norm_num
  · unfold audio_processor_init
    norm_num

/-! ## QuranAudioDownloader rate limiting (every_ayah_downloader.py
lines 110-115 and 127-133)

The downloader keeps one shared _last_request_timestamp and, before each
outbound request, sleeps until at least request_interval has elapsed since
it, then overwrites it with the current time and dispatches. There is no
lock around this read-sleep-write sequence. -/

/-- The request_interval configured in __init__ (line 115). -/
def request_interval : ℚ := 1

/-- Sequential semantics of _apply_rate_limit: given the stored last
timestamp and the wall-clock time at which the call begins, returns the time
at which the method returns — which is both the new stored timestamp and the
dispatch time of the request issued immediately after. -/
def apply_rate_limit (interval last now : ℚ) : ℚ :=
  if now - last < interval then now + (interval - (now - last)) else now

/-- Interleaved semantics of two tasks running _apply_rate_limit on the same
downloader. Each task performs two atomic phases: first it reads the clock
and the shared timestamp and computes its wake-up time (the read and the
sleep-length computation of lines 129-132), then it finishes sleeping,
overwrites the shared timestamp and dispatches (line 133 and the request
that follows). -/
inductive ThreadPhase where
  | idle : ThreadPhase
  | ready : ℚ → ThreadPhase
  | dispatched : ℚ → ThreadPhase
deriving DecidableEq, Repr

/-- Shared state: the wall clock, the shared _last_request_timestamp, and
the two task states. -/
structure RLState where
  clock : ℚ
  last : ℚ
  t0 : ThreadPhase
  t1 : ThreadPhase
deriving DecidableEq, Repr

/-- One atomic phase of the chosen task. -/
def rlStep (interval : ℚ) (s : RLState) (tid : Bool) : RLState :=
  match (if tid then s.t1 else s.t0) with
  | .idle =>
    let elapsed := s.clock - s.last
    let wake := if elapsed < interval then s.clock + (interval - elapsed) else s.clock
    if tid then { s with t1 := .ready wake } else { s with t0 := .ready wake }
  | .ready wake =>
    let t := max s.clock wake
    if tid then { s with clock := t, last := t, t1 := .dispatched t }
    else { s with clock := t, last := t, t0 := .dispatched t }
  | .dispatched _ => s

/-- Run a schedule of task phase executions. -/
def rlRun (interval : ℚ) (sched : List Bool) (s : RLState) : RLState :=
  sched.foldl (rlStep interval) s

/-- Initial state for the scenarios: the last request was at time 0 and both
tasks call _apply_rate_limit at time 10. -/
def rlInit : RLState := { clock := 10, last := 0, t0 := .idle, t1 := .idle }

/-- C3 counterexample: with no lock, both tasks can read the shared
timestamp before either writes it: under the schedule read-read-write-write
both dispatch at time 10, zero seconds apart, violating the claimed minimum
interval of 1 second between any two dispatches. -/
theorem rate_limit_concurrent_counterexample :
    (rlRun request_interval [false, true, false, true] rlInit).t0
        = .dispatched 10 ∧
    (rlRun request_interval [false, true, false, true] rlInit).t1
        = .dispatched 10 ∧
    ¬ (request_interval ≤ |(10 : ℚ) - 10|) := by
  refine ⟨?_, ?_, ?_⟩ <;>
    norm_num [rlRun, rlStep, rlInit, request_interval, List.foldl, max_def]

/-- C3 (amended): two requests issued sequentially through the same fetcher
(the second call reading the timestamp stored by the first) are dispatched
at least the configured interval apart; but the shared timestamp is not
protected by any mutual exclusion, and under the serialized schedule the
same interleaved model does give dispatches 1 second apart, while the racy
schedule of the counterexample does not. -/
theorem apply_rate_limit_sequential_gap :
    (∀ interval last now₁ now₂ : ℚ,
      interval ≤
        apply_rate_limit interval (apply_rate_limit interval last now₁) now₂
          - apply_rate_limit interval last now₁) ∧
    (rlRun request_interval [false, false, true, true] rlInit).t0
        = .dispatched 10 ∧
    (rlRun request_interval [false, false, true, true] rlInit).t1
        = .dispatched 11 ∧
    request_interval ≤ (11 : ℚ) - 10 := by
  refine ⟨?_, ?_, ?_, ?_⟩
  · intro i l n₁ n₂
    unfold apply_rate_limit
    split_ifs with h1 h2 h3 <;> linarith
  all_goals
    norm_num [rlRun, rlStep, rlInit, request_interval, List.foldl, max_def]

/-! ## AudioProcessor.normalize_audio (audio_processor.py lines 103-114) -/

/-- Shallow model of a pydub clip for loudness bookkeeping: a clip is its
measured loudness in dBFS. AudioSegment.apply_gain applies a uniform linear
gain of the given number of decibels, which in exact arithmetic shifts the
measured dBFS by exactly that amount. -/
structure AudioClip where
  dBFS : ℚ
deriving DecidableEq, Repr

/-- pydub AudioSegment.apply_gain in the loudness model. -/
def apply_gain (a : AudioClip) (gain : ℚ) : AudioClip :=
  ⟨a.dBFS + gain⟩

/-- AudioProcessor.normalize_audio line 112: the gain applied is
target_dbfs - audio.dBFS. -/
def normalize_audio (a : AudioClip) (target_dbfs : ℚ) : AudioClip :=
  apply_gain a (target_dbfs - a.dBFS)

/-- C9: normalization lands exactly on the target loudness, so a second
normalization with the same target applies a zero gain, changes the clip
not at all, and in particular moves the measured loudness by less than
0.01 dBFS. -/
theorem normalize_audio_idempotent :
    (∀ (a : AudioClip) (t : ℚ), (normalize_audio a t).dBFS = t) ∧
    (∀ (a : AudioClip) (t : ℚ),
      normalize_audio (normalize_audio a t) t = normalize_audio a t) ∧
    (∀ (a : AudioClip) (t : ℚ), t - (normalize_audio a t).dBFS = 0) ∧
    (∀ (a : AudioClip) (t : ℚ),
      |(normalize_audio (normalize_audio a t) t).dBFS
          - (normalize_audio a t).dBFS| < 1 / 100) := by
  refine ⟨?_, ?_, ?_, ?_⟩ <;> intro a t <;>
    simp [normalize_audio, apply_gain]

/-! ## AudioDuration.format_duration (audio_processor.py lines 57-63 and
audio_info_extractor.py lines 79-85)

hours = int(seconds // 3600); minutes = int((seconds % 3600) // 60);
seconds = int(seconds % 60); each is rendered with a 02d format and joined
with colons. Python floor division and modulo (positive divisor) are floor
based; int() coincides with floor on these arguments because the first is
integral and the other two are nonnegative. -/

/-- Python x % y for a positive divisor: x - y * floor(x / y). -/
def pymod (x y : ℚ) : ℚ :=
  x - y * ⌊x / y⌋

/-- Python 02d formatting for the nonnegative values produced here. -/
def pad2 (n : ℤ) : String :=
  if 0 ≤ n ∧ n < 10 then "0" ++ toString n else toString n

/-- format_duration: HH:MM:SS rendering of a duration in seconds. -/
def format_duration (seconds : ℚ) : String :=
  pad2 ⌊seconds / 3600⌋ ++ ":" ++ pad2 ⌊pymod seconds 3600 / 60⌋
    ++ ":" ++ pad2 ⌊pymod seconds 60⌋

/-- Helper: flooring a quotient by a positive natural equals integer
division of the floor. -/
theorem floor_div_natCast (q : ℚ) (n : ℕ) (hn : 0 < n) :
    ⌊q / ((n : ℕ) : ℚ)⌋ = ⌊q⌋ / ((n : ℕ) : ℤ) := by
  have hn' : (0 : ℚ) < n := by exact_mod_cast hn
  have hnz : ((n : ℕ) : ℤ) ≠ 0 := by exact_mod_cast hn.ne'
  rw [Int.floor_eq_iff]
  constructor
  · rw [le_div_iff₀ hn']
    have h1 : (⌊q⌋ / ((n : ℕ) : ℤ)) * ((n : ℕ) : ℤ) ≤ ⌊q⌋ := Int.ediv_mul_le ⌊q⌋ hnz
    calc ((⌊q⌋ / ((n : ℕ) : ℤ) : ℤ) : ℚ) * n
        = (((⌊q⌋ / ((n : ℕ) : ℤ)) * ((n : ℕ) : ℤ) : ℤ) : ℚ) := by push_cast; ring
      _ ≤ ((⌊q⌋ : ℤ) : ℚ) := by exact_mod_cast h1
      _ ≤ q := Int.floor_le q
  · rw [div_lt_iff₀ hn']
    have h2 : ⌊q⌋ < (⌊q⌋ / ((n : ℕ) : ℤ) + 1) * ((n : ℕ) : ℤ) :=
      Int.lt_ediv_add_one_mul_self ⌊q⌋ (by exact_mod_cast hn)
    calc q < ((⌊q⌋ : ℤ) : ℚ) + 1 := Int.lt_floor_add_one q
      _ ≤ (((⌊q⌋ / ((n : ℕ) : ℤ) + 1) * ((n : ℕ) : ℤ) : ℤ) : ℚ) := by
            exact_mod_cast h2
      _ = (((⌊q⌋ / ((n : ℕ) : ℤ) : ℤ) : ℚ) + 1) * n := by push_cast; ring

/-- Helper: the floor of a Python modulus by a positive natural is the
integer modulus of the floor. -/
theorem floor_pymod (q : ℚ) (n : ℕ) (hn : 0 < n) :
    ⌊pymod q ((n : ℕ) : ℚ)⌋ = ⌊q⌋ % ((n : ℕ) : ℤ) := by
  unfold pymod
  rw [floor_div_natCast q n hn]
  have hcast : ((n : ℕ) : ℚ) * ((⌊q⌋ / ((n : ℕ) : ℤ) : ℤ) : ℚ)
      = ((((n : ℕ) : ℤ) * (⌊q⌋ / ((n : ℕ) : ℤ)) : ℤ) : ℚ) := by push_cast; ring
  rw [hcast, Int.floor_sub_int, Int.emod_def]

/-- Helper: the Python modulus of an integer by a natural is the integer
modulus. -/
theorem pymod_intCast (k : ℤ) (n : ℕ) :
    pymod ((k : ℤ) : ℚ) ((n : ℕ) : ℚ) = ((k % ((n : ℕ) : ℤ) : ℤ) : ℚ) := by
  unfold pymod
  rw [Rat.floor_intCast_div_natCast, Int.emod_def]
  push_cast
  ring

/-- C8: format_duration truncates — on nonnegative input it agrees with
itself applied to the integer part, so fractional seconds are discarded —
and on the spec examples it gives 01:01:01 for 3661.0 and 00:00:59 for
59.9. -/
theorem format_duration_truncation :
    (∀ q : ℚ, 0 ≤ q → format_duration q = format_duration ((⌊q⌋ : ℤ) : ℚ)) ∧
    format_duration 3661 = "01:01:01" ∧
    format_duration (599 / 10) = "00:00:59" := by
  refine ⟨?_, ?_, ?_⟩
  · intro q _hq
    unfold format_duration
    rw [show (3600 : ℚ) = ((3600 : ℕ) : ℚ) by norm_num,
        show (60 : ℚ) = ((60 : ℕ) : ℚ) by norm_num]
    rw [floor_div_natCast q 3600 (by norm_num),
        floor_div_natCast ((⌊q⌋ : ℤ) : ℚ) 3600 (by norm_num),
        Int.floor_intCast,
        floor_div_natCast (pymod q ((3600 : ℕ) : ℚ)) 60 (by norm_num),
        floor_div_natCast (pymod ((⌊q⌋ : ℤ) : ℚ) ((3600 : ℕ) : ℚ)) 60 (by norm_num),
        floor_pymod q 3600 (by norm_num),
        floor_pymod q 60 (by norm_num),
        pymod_intCast ⌊q⌋ 3600,
        pymod_intCast ⌊q⌋ 60,
        Int.floor_intCast, Int.floor_intCast]
  · have h1 : ⌊(3661 : ℚ) / 3600⌋ = 1 := by
      rw [Int.floor_eq_iff]
      norm_num
    have h2 : pymod (3661 : ℚ) 3600 = 61 := by
      unfold pymod
      rw [h1]
      norm_num
    have h3 : ⌊(61 : ℚ) / 60⌋ = 1 := by
      rw [Int.floor_eq_iff]
      norm_num
    have h4 : ⌊(3661 : ℚ) / 60⌋ = 61 := by
      rw [Int.floor_eq_iff]
      norm_num
    have h5 : pymod (3661 : ℚ) 60 = 1 := by
      unfold pymod
      rw [h4]
      norm_num
    have h6 : ⌊(1 : ℚ)⌋ = 1 := by norm_num
    unfold format_duration
    rw [h1, h2, h3, h5, h6]
    rfl
  · have h1 : ⌊(599 / 10 : ℚ) / 3600⌋ = 0 := by
      rw [Int.floor_eq_iff]
      norm_num
    have h2 : pymod (599 / 10 : ℚ) 3600 = 599 / 10 := by
      unfold pymod
      rw [h1]
      norm_num
    have h3 : ⌊(599 / 10 : ℚ) / 60⌋ = 0 := by
      rw [Int.floor_eq_iff]
      norm_num
    have h4 : pymod (599 / 10 : ℚ) 60 = 599 / 10 := by
      unfold pymod
      rw [h3]
      norm_num
    have h5 : ⌊(599 / 10 : ℚ)⌋ = 59 := by
      rw [Int.floor_eq_iff]
      norm_num
    unfold format_duration
    rw [h1, h2, h3, h4, h5]
    rfl

/-- C8 witness: the truncation equation applied at 5/2 seconds. -/
theorem format_duration_truncation_witness :
    format_duration (5 / 2) = format_duration ((⌊(5 / 2 : ℚ)⌋ : ℤ) : ℚ) :=
  format_duration_truncation.1 (5 / 2) (by norm_num)

/-! ## QuranDataManager verse coordination
(quran_data_manager.py lines 59-87, 101-126, 128-152)

Per-ayah I/O is abstracted by oracles: the verse-text dataset is a partial
map, and each ayah has an environment describing whether its audio file
already exists, what downloading it yields, and what duration extraction
yields (error values model raised exceptions). The order in which the
thread-pool futures complete is an explicit completionOrder list. -/

/-- The dictionary returned by UthmanicHafsData.get_verse_info
(uthmanic_hafs_parser.py lines 59-77): the sura_no and aya_no fields are
the requested numbers. -/
structure VerseInfo where
  sura_no : ℕ
  aya_no : ℕ
  sura_name_en : String
  sura_name_ar : String
  aya_text : String
deriving DecidableEq, Repr

/-- get_verse_info over an abstract dataset mapping (surah, ayah) to the
stored name/name/text triple, none when absent. -/
def get_verse_info (dataset : ℕ → ℕ → Option (String × String × String))
    (surah_num ayah_num : ℕ) : Option VerseInfo :=
  match dataset surah_num ayah_num with
  | none => none
  | some (en, ar, txt) => some ⟨surah_num, ayah_num, en, ar, txt⟩

/-- Per-ayah I/O oracle for _process_single_verse: the existence check at
line 113, the download at line 115 (error = raised exception), and the
duration extraction at line 120 (error = raised ValueError). -/
structure VerseTaskEnv where
  file_exists : Bool
  download : Except String String
  duration : Except String ℚ

/-- Python f-string 03d formatting for surah/ayah numbers. -/
def pad3 (n : ℕ) : String :=
  if n < 10 then "00" ++ toString n
  else if n < 100 then "0" ++ toString n
  else toString n

/-- The per-verse record built at line 122. -/
structure ProcessedVerse where
  verse_info : VerseInfo
  audio_path : String
  duration : ℚ
deriving DecidableEq, Repr

/-- QuranDataManager._process_single_verse (lines 101-126): missing verse
text, a failed download, or a failed duration extraction each yield None
(the outer try/except catches every exception and drops the ayah). -/
def process_single_verse (dataset : ℕ → ℕ → Option (String × String × String))
    (env : ℕ → VerseTaskEnv) (reciter_audio_dir : String)
    (surah_number ayah_number : ℕ) : Option ProcessedVerse :=
  match get_verse_info dataset surah_number ayah_number with
  | none => none
  | some vi =>
    let audio_filename := pad3 surah_number ++ pad3 ayah_number ++ ".mp3"
    let pathResult : Except String String :=
      if (env ayah_number).file_exists then
        .ok (reciter_audio_dir ++ "/" ++ audio_filename)
      else
        (env ayah_number).download
    match pathResult with
    | .error _ => none
    | .ok p =>
      match (env ayah_number).duration with
      | .error _ => none
      | .ok dur => some ⟨vi, p, dur⟩

/-- QuranDataManager._process_verses_concurrently (lines 128-152): results
are appended in future-completion order, skipping None results. -/
def process_verses_concurrently (dataset : ℕ → ℕ → Option (String × String × String))
    (env : ℕ → VerseTaskEnv) (reciter_audio_dir : String) (surah_number : ℕ)
    (completionOrder : List ℕ) : List ProcessedVerse :=
  completionOrder.filterMap
    (process_single_verse dataset env reciter_audio_dir surah_number)

/-- The dictionary returned by get_verses_info (lines 79 and 83-87). -/
structure VersesResult where
  verse_info : List VerseInfo
  verses_audio_paths : List String
  verse_durations : List ℚ
deriving DecidableEq, Repr

/-- The sort key comparison of line 81. -/
def ayaLe (x y : ProcessedVerse) : Bool :=
  decide (x.verse_info.aya_no ≤ y.verse_info.aya_no)

/-- QuranDataManager.get_verses_info (lines 59-87): validate, process the
range concurrently, return the empty triple when nothing succeeded, else
sort by ayah number and project the three lists. -/
def get_verses_info (dataset : ℕ → ℕ → Option (String × String × String))
    (env : ℕ → VerseTaskEnv) (reciter_audio_dir : String)
    (surah_number start_ayah end_ayah : ℕ) (completionOrder : List ℕ) :
    Except String VersesResult :=
  match validate_verse_range surah_number start_ayah end_ayah with
  | .error e => .error e
  | .ok _ =>
    let verses_data :=
      process_verses_concurrently dataset env reciter_audio_dir surah_number
        completionOrder
    if verses_data.isEmpty then
      .ok ⟨[], [], []⟩
    else
      let sortedData := verses_data.mergeSort ayaLe
      .ok ⟨sortedData.map (fun v => v.verse_info),
           sortedData.map (fun v => v.audio_path),
           sortedData.map (fun v => v.duration)⟩

/-- C5: whenever get_verses_info returns a result, its verse list is sorted
by ascending ayah number, for every completion order of the concurrent
tasks. -/
theorem get_verses_info_sorted
    (dataset : ℕ → ℕ → Option (String × String × String))
    (env : ℕ → VerseTaskEnv) (reciter_audio_dir : String)
    (surah_number start_ayah end_ayah : ℕ) (completionOrder : List ℕ)
    (res : VersesResult)
    (hok : get_verses_info dataset env reciter_audio_dir surah_number
        start_ayah end_ayah completionOrder = .ok res) :
    res.verse_info.Sorted (fun a b => a.aya_no ≤ b.aya_no) := by
  unfold get_verses_info at hok
  cases hval : validate_verse_range surah_number start_ayah end_ayah with
  | error e => rw [hval] at hok; cases hok
  | ok u =>
    cases u
    rw [hval] at hok
    simp only at hok
    by_cases hemp : (process_verses_concurrently dataset env reciter_audio_dir
        surah_number completionOrder).isEmpty
    · rw [if_pos hemp] at hok
      cases hok
      simp [List.Sorted]
    · rw [if_neg hemp] at hok
      cases hok
      have hs := @List.sorted_mergeSort _ ayaLe
        (fun a b c hab hbc => by
          simp only [ayaLe, decide_eq_true_eq] at hab hbc ⊢
          omega)
        (fun a b => by
          simp only [ayaLe, Bool.or_eq_true, decide_eq_true_eq]
          omega)
        (process_verses_concurrently dataset env reciter_audio_dir
          surah_number completionOrder)
      simp only [VersesResult.verse_info, List.Sorted, List.pairwise_map]
      exact hs.imp (fun h => by
        simpa [ayaLe, decide_eq_true_eq] using h)

/-- C5 witness: the sortedness theorem applied to a concrete run in which
the only task finds no verse text, so the returned verse list is empty. -/
theorem get_verses_info_sorted_witness :
    List.Sorted (fun a b => a.aya_no ≤ b.aya_no) ([] : List VerseInfo) :=
  get_verses_info_sorted (fun _ _ => none)
    (fun _ => ⟨true, Except.ok "", Except.ok 0⟩) "d" 1 1 1 [1] ⟨[], [], []⟩ rfl

/-- C4: per-task isolation — under any completion order of the requested
range, the returned verse list consists exactly of the records of the
succeeding ayah tasks (failing ayahs are dropped without affecting
siblings), it is never longer than the requested range, and when every task
fails the coordinator returns the empty triple rather than an error. -/
theorem get_verses_info_isolation
    (dataset : ℕ → ℕ → Option (String × String × String))
    (env : ℕ → VerseTaskEnv) (reciter_audio_dir : String)
    (surah_number start_ayah end_ayah : ℕ) (completionOrder : List ℕ)
    (res : VersesResult)
    (hperm : completionOrder.Perm (ayahRange start_ayah end_ayah))
    (hok : get_verses_info dataset env reciter_audio_dir surah_number
        start_ayah end_ayah completionOrder = .ok res) :
    res.verse_info.Perm
      ((ayahRange start_ayah end_ayah).filterMap
        (fun a => (process_single_verse dataset env reciter_audio_dir
            surah_number a).map (fun v => v.verse_info))) ∧
    ((∀ a ∈ ayahRange start_ayah end_ayah,
        process_single_verse dataset env reciter_audio_dir surah_number a
          = none) →
      res = ⟨[], [], []⟩) ∧
    res.verse_info.length ≤ (ayahRange start_ayah end_ayah).length := by
  unfold get_verses_info at hok
  cases hval : validate_verse_range surah_number start_ayah end_ayah with
  | error e => rw [hval] at hok; cases hok
  | ok u =>
    cases u
    rw [hval] at hok
    simp only at hok
    have hvd : (process_verses_concurrently dataset env reciter_audio_dir
        surah_number completionOrder).Perm
        ((ayahRange start_ayah end_ayah).filterMap
          (process_single_verse dataset env reciter_audio_dir surah_number)) :=
      hperm.filterMap _
    by_cases hemp : (process_verses_concurrently dataset env reciter_audio_dir
        surah_number completionOrder).isEmpty
    · rw [if_pos hemp] at hok
      cases hok
      have hnil : (ayahRange start_ayah end_ayah).filterMap
          (process_single_verse dataset env reciter_audio_dir surah_number)
            = [] := by
        rw [List.isEmpty_iff] at hemp
        rw [hemp] at hvd
        exact hvd.symm.eq_nil
      refine ⟨?_, fun _ => rfl, by simp⟩
      rw [← List.map_filterMap, hnil]
      exact List.Perm.refl _
    · rw [if_neg hemp] at hok
      cases hok
      have hsortperm : ((process_verses_concurrently dataset env
          reciter_audio_dir surah_number completionOrder).mergeSort
            ayaLe).Perm
          ((ayahRange start_ayah end_ayah).filterMap
            (process_single_verse dataset env reciter_audio_dir surah_number)) :=
        (List.mergeSort_perm _ ayaLe).trans hvd
      refine ⟨?_, ?_, ?_⟩
      · rw [← List.map_filterMap]
        exact hsortperm.map _
      · intro hall
        exfalso
        rw [List.isEmpty_iff] at hemp
        apply hemp
        have : (ayahRange start_ayah end_ayah).filterMap
            (process_single_verse dataset env reciter_audio_dir surah_number)
              = [] := List.filterMap_eq_nil_iff.mpr hall
        rw [this] at hvd
        exact hvd.eq_nil
      · have h1 := hsortperm.length_eq
        have h2 := List.length_filterMap_le
          (process_single_verse dataset env reciter_audio_dir surah_number)
          (ayahRange start_ayah end_ayah)
        simp only [VersesResult.verse_info, List.length_map]
        omega

/-- C4 witness: the isolation theorem applied to a concrete run of a
single-ayah range whose only task fails, recovering the empty permutation. -/
theorem get_verses_info_isolation_witness :
    ([] : List VerseInfo).Perm
      ((ayahRange 1 1).filterMap
        (fun a => (process_single_verse (fun _ _ => none)
            (fun _ => ⟨true, Except.ok "", Except.ok 0⟩) "d" 1 a).map
          (fun v => v.verse_info))) :=
  (get_verses_info_isolation (fun _ _ => none)
    (fun _ => ⟨true, Except.ok "", Except.ok 0⟩) "d" 1 1 1 [1] ⟨[], [], []⟩
    (List.Perm.refl _) rfl).1

end AlForqan
